import Mathlib

/-!
Shallow embedding of the personal-finance backend core: the account ledger,
the transaction engine (create, update, delete, monthly totals) and the
ownership-guarded by-id getters, translated from the TypeScript source
(transaction.service.ts, account.service.ts, category.service.ts,
account.entity.ts, transaction.entity.ts, prisma-account.repository.ts,
prisma-transaction.repository.ts).

Balances and amounts are modelled as exact rationals (the store declares
them DECIMAL(15,2)); timestamps as integer seconds on the proleptic
Gregorian calendar, with the JavaScript Date month and day normalization
reproduced for the monthly-totals window.  Each stateful service call is a
function from the database value to a result together with the database
value after the call, so that state left behind by a failing call is
observable.
-/

namespace FinApp

/-- Monetary values: the store declares DECIMAL(15,2) and the core only
adds, subtracts and compares them, so amounts and balances are modelled
exactly as integers (the value in hundredths). -/
abbrev Money : Type := ℤ

inductive AccountType
  | checking
  | savings
  | credit
  | cash
deriving DecidableEq, Repr

inductive Currency
  | rsd
  | eur
  | usd
deriving DecidableEq, Repr

inductive TransactionType
  | income
  | expense
  | transfer
deriving DecidableEq, Repr

/-- Account entity (account.entity.ts); timestamps and the bank fields are
omitted because no claim mentions them. -/
structure Account where
  id : String
  userId : String
  name : String
  accountType : AccountType
  currency : Currency
  balance : Money
  isActive : Bool := true
deriving DecidableEq, Repr

/-- Account.isOwnedBy from account.entity.ts. -/
def Account.isOwnedBy (a : Account) (userId : String) : Bool :=
  a.userId == userId

/-- Account.updateBalance from account.entity.ts: the entity-level guard that
throws when a non-credit account would go negative.  It is invoked by
AccountService.updateAccountBalance but bypassed by the transaction engine. -/
def Account.updateBalance (a : Account) (newBalance : Money) : Except String Account :=
  if newBalance < 0 ∧ a.accountType ≠ AccountType.credit then
    .error "Non-credit accounts cannot have negative balance"
  else
    .ok { a with balance := newBalance }

/-- Transaction entity (transaction.entity.ts); ids are modelled as the
naturals handed out by the store. -/
structure Transaction where
  id : Nat
  userId : String
  accountId : String
  categoryId : Option String
  type : TransactionType
  amount : Money
  description : String
  transactionDate : ℤ
  toAccountId : Option String
  fromAccountId : Option String
deriving DecidableEq, Repr

def Transaction.isOwnedBy (t : Transaction) (userId : String) : Bool :=
  t.userId == userId

def Transaction.isExpense (t : Transaction) : Bool :=
  decide (t.type = TransactionType.expense)

def Transaction.isIncome (t : Transaction) : Bool :=
  decide (t.type = TransactionType.income)

def Transaction.isTransfer (t : Transaction) : Bool :=
  decide (t.type = TransactionType.transfer)

/-- Row data produced by Transaction.create (transaction.entity.ts) before
the store assigns an id. -/
structure CreateTransactionData where
  userId : String
  accountId : String
  categoryId : Option String
  type : TransactionType
  amount : Money
  description : String
  transactionDate : ℤ
  toAccountId : Option String
  fromAccountId : Option String
deriving DecidableEq, Repr

/-- Transaction.create from transaction.entity.ts: `toAccountId` is kept only
for transfers, `fromAccountId` mirrors `accountId` for transfers, and a
missing date defaults to the current time. -/
def Transaction.create (userId accountId : String) (type : TransactionType)
    (amount : Money) (description : String) (categoryId : Option String)
    (transactionDate : Option ℤ) (toAccountId : Option String) (now : ℤ) :
    CreateTransactionData :=
  { userId := userId
    accountId := accountId
    categoryId := categoryId
    type := type
    amount := amount
    description := description
    transactionDate := transactionDate.getD now
    toAccountId := if type = TransactionType.transfer then toAccountId else none
    fromAccountId := if type = TransactionType.transfer then some accountId else none }

inductive CategoryType
  | income
  | expense
deriving DecidableEq, Repr

/-- Category entity (category.entity.ts), reduced to the fields the
ownership claims mention. -/
structure Category where
  id : String
  userId : String
  name : String
  type : CategoryType
  isActive : Bool := true
deriving DecidableEq, Repr

def Category.isOwnedBy (c : Category) (userId : String) : Bool :=
  c.userId == userId

/-- The relational store: one list per entity plus the id counter the store
uses for new transaction rows. -/
structure DB where
  accounts : List Account
  transactions : List Transaction
  categories : List Category
  nextTxId : Nat
deriving DecidableEq, Repr

/-- Well-formed store: every persisted transaction id is below the counter,
so the id handed to the next insert is fresh. -/
def DB.WF (db : DB) : Bool :=
  db.transactions.all (fun t => t.id < db.nextTxId)

namespace AccountRepo

/-- PrismaAccountRepository.findById. -/
def findById (db : DB) (id : String) : Option Account :=
  db.accounts.find? (fun a => a.id == id)

/-- PrismaAccountRepository.updateBalance: overwrites the stored balance of
the row with the given id.  Note that it performs no invariant check of any
kind; a missing row yields none and leaves the store unchanged. -/
def updateBalance (db : DB) (id : String) (newBalance : Money) : Option Account × DB :=
  match findById db id with
  | none => (none, db)
  | some a =>
    let a2 := { a with balance := newBalance }
    (some a2, { db with accounts := db.accounts.map (fun b => if b.id == id then a2 else b) })

end AccountRepo

namespace CategoryRepo

/-- PrismaCategoryRepository.findById. -/
def findById (db : DB) (id : String) : Option Category :=
  db.categories.find? (fun c => c.id == id)

end CategoryRepo

/-- Patch shape accepted by the transaction update endpoint
(UpdateTransactionDto): only category, description and date. -/
structure UpdateTransactionDto where
  categoryId : Option String := none
  description : Option String := none
  transactionDate : Option ℤ := none
deriving DecidableEq, Repr

namespace TransactionRepo

/-- PrismaTransactionRepository.findById. -/
def findById (db : DB) (id : Nat) : Option Transaction :=
  db.transactions.find? (fun t => t.id == id)

/-- PrismaTransactionRepository.save: insert the row under a fresh id. -/
def save (db : DB) (data : CreateTransactionData) : Transaction × DB :=
  let t : Transaction :=
    { id := db.nextTxId
      userId := data.userId
      accountId := data.accountId
      categoryId := data.categoryId
      type := data.type
      amount := data.amount
      description := data.description
      transactionDate := data.transactionDate
      toAccountId := data.toAccountId
      fromAccountId := data.fromAccountId }
  (t, { db with transactions := db.transactions ++ [t], nextTxId := db.nextTxId + 1 })

/-- PrismaTransactionRepository.update: fields absent from the patch keep
their stored value (Prisma ignores undefined keys). -/
def update (db : DB) (id : Nat) (dto : UpdateTransactionDto) :
    Option Transaction × DB :=
  match findById db id with
  | none => (none, db)
  | some t =>
    let t2 := { t with
      categoryId := match dto.categoryId with
        | some c => some c
        | none => t.categoryId
      description := dto.description.getD t.description
      transactionDate := dto.transactionDate.getD t.transactionDate }
    (some t2, { db with transactions := db.transactions.map (fun u => if u.id == id then t2 else u) })

/-- PrismaTransactionRepository.delete: removes the rows with the given id;
the Bool mirrors the success flag the source returns (and every caller
ignores). -/
def delete (db : DB) (id : Nat) : Bool × DB :=
  (db.transactions.any (fun t => t.id == id),
   { db with transactions := db.transactions.filter (fun t => !(t.id == id)) })

/-- Date-range membership test used by the Prisma where clauses (gte on
dateFrom, lte on dateTo, both inclusive, absent bounds unconstrained). -/
def inWindow (dateFrom dateTo : Option ℤ) (d : ℤ) : Bool :=
  (match dateFrom with
    | some lo => decide (lo ≤ d)
    | none => true) &&
  (match dateTo with
    | some hi => decide (d ≤ hi)
    | none => true)

/-- PrismaTransactionRepository.getSumByType: sum of amounts over the rows
of the user with the given type inside the optional date window; an empty
selection sums to zero. -/
def getSumByType (db : DB) (userId : String) (type : TransactionType)
    (dateFrom dateTo : Option ℤ) : Money :=
  ((db.transactions.filter (fun t =>
      t.userId == userId && decide (t.type = type) &&
        inWindow dateFrom dateTo t.transactionDate)).map
    (fun t => t.amount)).sum

end TransactionRepo

/-- The monthly stats record returned by getMonthlyTotals. -/
structure MonthlyTotals where
  income : Money
  expense : Money
  net : Money
deriving DecidableEq, Repr

/-- Leap-year test of the Gregorian calendar (what the JavaScript Date
arithmetic in getMonthlyTotals relies on). -/
def isLeap (y : Nat) : Bool :=
  (y % 4 == 0 && y % 100 != 0) || y % 400 == 0

/-- Days in the 1-based month m of year y. -/
def daysInMonth (y : Nat) (m : Nat) : Nat :=
  match m with
  | 2 => if isLeap y then 29 else 28
  | 4 => 30
  | 6 => 30
  | 9 => 30
  | 11 => 30
  | _ => 31

/-- Number of leap years k with k < y in the proleptic Gregorian calendar
(year 0 counts as a leap year). -/
def leapsBefore (y : Nat) : Nat :=
  (y + 3) / 4 - (y + 99) / 100 + (y + 399) / 400

/-- Days in all years before year y, counting from year 0. -/
def daysBeforeYear (y : Nat) : Nat :=
  365 * y + leapsBefore y

/-- Days in year y before the 1-based month m. -/
def daysBeforeMonth (y : Nat) (m : Nat) : Nat :=
  ((List.range (m - 1)).map (fun k => daysInMonth y (k + 1))).sum

/-- JavaScript `new Date(year, monthIndex, day, hh, mm, ss)` as seconds on
the proleptic Gregorian time line: the 0-based month index overflows into
the year and day 0 means the last day of the previous month, exactly the
normalization getMonthlyTotals exploits. -/
def jsTime (year monthIndex : Nat) (day : ℤ) (hh mm ss : Nat) : ℤ :=
  let ym := 12 * year + monthIndex
  let normYear := ym / 12
  let normMonth := ym % 12 + 1
  ((daysBeforeYear normYear : ℤ) + (daysBeforeMonth normYear normMonth : ℤ) + day - 1) * 86400
    + hh * 3600 + mm * 60 + ss

/-- PrismaTransactionRepository.getMonthlyTotals: window from
`new Date(year, month - 1, 1)` to `new Date(year, month, 0, 23, 59, 59)`,
income and expense summed separately, net their difference. -/
def TransactionRepo.getMonthlyTotals (db : DB) (userId : String)
    (year month : Nat) : MonthlyTotals :=
  let startDate := jsTime year (month - 1) 1 0 0 0
  let endDate := jsTime year month 0 23 59 59
  let income := TransactionRepo.getSumByType db userId TransactionType.income
    (some startDate) (some endDate)
  let expense := TransactionRepo.getSumByType db userId TransactionType.expense
    (some startDate) (some endDate)
  { income := income, expense := expense, net := income - expense }

/-- Error taxonomy of the service layer: NotFoundException,
ForbiddenException (access denied) and BadRequestException of the source,
plus a constructor standing for a fault raised by the storage gateway
itself (the source has no handler for those). -/
inductive ApiError
  | notFound (msg : String)
  | forbidden (msg : String)
  | badRequest (msg : String)
  | storage (msg : String)
deriving DecidableEq, Repr

/-- True exactly on a NotFound failure. -/
def resultIsNotFound {α : Type} (r : Except ApiError α) : Bool :=
  match r with
  | .error (.notFound _) => true
  | _ => false

/-- CreateTransactionDto from transaction.dto.ts. -/
structure CreateTransactionDto where
  accountId : String
  categoryId : Option String := none
  type : TransactionType
  amount : Money
  description : String := ""
  transactionDate : Option ℤ := none
  toAccountId : Option String := none
deriving DecidableEq, Repr

namespace TransactionService

/-- TransactionService.createTransaction, with the storage gateway's save
call allowed to fail (`saveOk = false` models a storage fault at the
`transactionRepo.save` await; the source wraps nothing in a transaction and
catches nothing, so the balance writes made before the fault stay in the
store and the error propagates).  The returned DB is the store after the
call, whether it succeeded or not. -/
def createTransactionWith (saveOk : Bool) (db : DB) (userId : String)
    (dto : CreateTransactionDto) (now : ℤ) : Except ApiError Transaction × DB :=
  match AccountRepo.findById db dto.accountId with
  | none => (.error (.forbidden "Access denied to this account"), db)
  | some account =>
    if !account.isOwnedBy userId then
      (.error (.forbidden "Access denied to this account"), db)
    else
      let applied : Except ApiError DB :=
        match dto.type with
        | TransactionType.transfer =>
          match dto.toAccountId with
          | none => .error (.badRequest "Destination account required for transfers")
          | some toId =>
            match AccountRepo.findById db toId with
            | none => .error (.forbidden "Access denied to destination account")
            | some toAccount =>
              if !toAccount.isOwnedBy userId then
                .error (.forbidden "Access denied to destination account")
              else
                let db1 := (AccountRepo.updateBalance db dto.accountId
                  (account.balance - dto.amount)).2
                let db2 := (AccountRepo.updateBalance db1 toId
                  (toAccount.balance + dto.amount)).2
                .ok db2
        | TransactionType.expense =>
          .ok (AccountRepo.updateBalance db dto.accountId
            (account.balance - dto.amount)).2
        | TransactionType.income =>
          .ok (AccountRepo.updateBalance db dto.accountId
            (account.balance + dto.amount)).2
      match applied with
      | .error e => (.error e, db)
      | .ok db2 =>
        if saveOk then
          let saved := TransactionRepo.save db2 (Transaction.create userId
            dto.accountId dto.type dto.amount dto.description dto.categoryId
            dto.transactionDate dto.toAccountId now)
          (.ok saved.1, saved.2)
        else
          (.error (.storage "transaction row save failed"), db2)

/-- TransactionService.createTransaction with a fault-free storage gateway. -/
def createTransaction (db : DB) (userId : String) (dto : CreateTransactionDto)
    (now : ℤ) : Except ApiError Transaction × DB :=
  createTransactionWith true db userId dto now

/-- TransactionService.getTransaction. -/
def getTransaction (db : DB) (id : Nat) (userId : String) :
    Except ApiError Transaction :=
  match TransactionRepo.findById db id with
  | none => .error (.notFound "Transaction not found")
  | some t =>
    if !t.isOwnedBy userId then .error (.forbidden "Access denied")
    else .ok t

/-- TransactionService.updateTransaction: ownership check via
getTransaction, then the repository patch. -/
def updateTransaction (db : DB) (id : Nat) (userId : String)
    (dto : UpdateTransactionDto) : Except ApiError Transaction × DB :=
  match getTransaction db id userId with
  | .error e => (.error e, db)
  | .ok _ =>
    match TransactionRepo.update db id dto with
    | (none, db2) => (.error (.notFound "Transaction not found"), db2)
    | (some t, db2) => (.ok t, db2)

/-- TransactionService.deleteTransaction: reverse the balance effect when
the referenced accounts still exist, then delete the row. -/
def deleteTransaction (db : DB) (id : Nat) (userId : String) :
    Except ApiError Unit × DB :=
  match getTransaction db id userId with
  | .error e => (.error e, db)
  | .ok t =>
    let db1 :=
      match AccountRepo.findById db t.accountId with
      | none => db
      | some account =>
        if t.isExpense then
          (AccountRepo.updateBalance db t.accountId (account.balance + t.amount)).2
        else if t.isIncome then
          (AccountRepo.updateBalance db t.accountId (account.balance - t.amount)).2
        else if t.isTransfer then
          match t.toAccountId with
          | none => db
          | some toId =>
            match AccountRepo.findById db toId with
            | none => db
            | some toAccount =>
              let d1 := (AccountRepo.updateBalance db t.accountId
                (account.balance + t.amount)).2
              (AccountRepo.updateBalance d1 toId (toAccount.balance - t.amount)).2
        else db
    (.ok (), (TransactionRepo.delete db1 id).2)

/-- TransactionService.getAccountTransactions: ownership-guarded listing of
one account, matching either leg of a transfer (ordering omitted). -/
def getAccountTransactions (db : DB) (accountId userId : String) :
    Except ApiError (List Transaction) :=
  match AccountRepo.findById db accountId with
  | none => .error (.forbidden "Access denied")
  | some account =>
    if !account.isOwnedBy userId then .error (.forbidden "Access denied")
    else
      .ok (db.transactions.filter (fun t =>
        t.userId == userId &&
          (t.accountId == accountId || t.toAccountId == some accountId)))

end TransactionService

namespace AccountService

/-- AccountService.getAccountById: existence first, then ownership. -/
def getAccountById (db : DB) (accountId userId : String) :
    Except ApiError Account :=
  match AccountRepo.findById db accountId with
  | none => .error (.notFound "Account not found")
  | some account =>
    if !account.isOwnedBy userId then
      .error (.forbidden "Access denied to this account")
    else .ok account

/-- AccountService.updateAccountBalance: ownership check, then the
entity-level invariant check, then the repository overwrite. -/
def updateAccountBalance (db : DB) (accountId userId : String)
    (newBalance : Money) : Except ApiError Account × DB :=
  match getAccountById db accountId userId with
  | .error e => (.error e, db)
  | .ok account =>
    match account.updateBalance newBalance with
    | .error msg => (.error (.badRequest msg), db)
    | .ok _ =>
      match AccountRepo.updateBalance db accountId newBalance with
      | (none, db2) => (.error (.notFound "Account not found"), db2)
      | (some updated, db2) => (.ok updated, db2)

end AccountService

namespace CategoryService

/-- CategoryService.getCategory: existence first, then ownership. -/
def getCategory (db : DB) (id userId : String) : Except ApiError Category :=
  match CategoryRepo.findById db id with
  | none => .error (.notFound "Category not found")
  | some category =>
    if !category.isOwnedBy userId then
      .error (.forbidden "Access denied to this category")
    else .ok category

end CategoryService

/-! Spec-side formulation of the monthly window, written from the words of
the specification (first day of the month at 00:00:00 through the last day
at 23:59:59, both inclusive), to be compared with the window the code
builds through the JavaScript Date normalization. -/

def specMonthStart (year month : Nat) : ℤ :=
  ((daysBeforeYear year : ℤ) + (daysBeforeMonth year month : ℤ)) * 86400

def specMonthEnd (year month : Nat) : ℤ :=
  ((daysBeforeYear year : ℤ) + (daysBeforeMonth year month : ℤ)
      + (daysInMonth year month : ℤ) - 1) * 86400
    + (23 * 3600 + 59 * 60 + 59)

/-- Monthly totals as the specification words them: income is the sum of
amounts of the type income transactions of the user dated inside the
inclusive window, expense likewise, net their difference. -/
def specMonthlyTotals (db : DB) (userId : String) (year month : Nat) :
    MonthlyTotals :=
  let income := ((db.transactions.filter (fun t =>
      t.userId == userId && decide (t.type = TransactionType.income) &&
        (decide (specMonthStart year month ≤ t.transactionDate) &&
          decide (t.transactionDate ≤ specMonthEnd year month)))).map
    (fun t => t.amount)).sum
  let expense := ((db.transactions.filter (fun t =>
      t.userId == userId && decide (t.type = TransactionType.expense) &&
        (decide (specMonthStart year month ≤ t.transactionDate) &&
          decide (t.transactionDate ≤ specMonthEnd year month)))).map
    (fun t => t.amount)).sum
  { income := income, expense := expense, net := income - expense }

/-! Concrete store fixtures used to evaluate the services at specific
inputs. -/

/-- A checking account in RSD with the given id, owner and balance. -/
def chk (i u : String) (b : Money) : Account :=
  { id := i, userId := u, name := i, accountType := AccountType.checking,
    currency := Currency.rsd, balance := b }

/-- A store holding a single checking account acc1 of user u1. -/
def oneAccountDb (b : Money) : DB :=
  { accounts := [chk "acc1" "u1" b], transactions := [], categories := [],
    nextTxId := 0 }

/-- A store holding two checking accounts accA and accB of user u1. -/
def twoAccountDb (b1 b2 : Money) : DB :=
  { accounts := [chk "accA" "u1" b1, chk "accB" "u1" b2], transactions := [],
    categories := [], nextTxId := 0 }

/-- The empty store. -/
def emptyDb : DB :=
  { accounts := [], transactions := [], categories := [], nextTxId := 0 }

/-- An income of 80000 dated on the first second of September 2024. -/
def septIncomeTx : Transaction :=
  { id := 0, userId := "u1", accountId := "acc1", categoryId := none,
    type := TransactionType.income, amount := 80000, description := "salary",
    transactionDate := specMonthStart 2024 9, toAccountId := none,
    fromAccountId := none }

/-- An expense of 1500 dated September 10, 2024. -/
def septExpenseTx : Transaction :=
  { id := 1, userId := "u1", accountId := "acc1", categoryId := none,
    type := TransactionType.expense, amount := 1500, description := "market",
    transactionDate := specMonthStart 2024 9 + 9 * 86400, toAccountId := none,
    fromAccountId := none }

/-- A store with the September 2024 history of user u1. -/
def statsDb : DB :=
  { accounts := [chk "acc1" "u1" 100000],
    transactions := [septIncomeTx, septExpenseTx], categories := [],
    nextTxId := 2 }

/-- An expense row of user u1 whose account acc1 exists in deleteDb. -/
def delExpenseTx : Transaction :=
  { id := 7, userId := "u1", accountId := "acc1", categoryId := none,
    type := TransactionType.expense, amount := 50, description := "lunch",
    transactionDate := 0, toAccountId := none, fromAccountId := none }

/-- An expense row of user u1 referencing an account that has vanished. -/
def orphanExpenseTx : Transaction :=
  { id := 8, userId := "u1", accountId := "gone", categoryId := none,
    type := TransactionType.expense, amount := 50, description := "lunch",
    transactionDate := 0, toAccountId := none, fromAccountId := none }

/-- A transfer row of user u1 from acc1 to a vanished destination. -/
def orphanTransferTx : Transaction :=
  { id := 9, userId := "u1", accountId := "acc1", categoryId := none,
    type := TransactionType.transfer, amount := 50, description := "move",
    transactionDate := 0, toAccountId := some "goneToo",
    fromAccountId := some "acc1" }

/-- A store with one account and the three rows above. -/
def deleteDb : DB :=
  { accounts := [chk "acc1" "u1" 500],
    transactions := [delExpenseTx, orphanExpenseTx, orphanTransferTx],
    categories := [], nextTxId := 10 }

/-- A transfer row of user u1 between two accounts that both exist. -/
def pairTransferTx : Transaction :=
  { id := 3, userId := "u1", accountId := "accA", categoryId := none,
    type := TransactionType.transfer, amount := 200, description := "move",
    transactionDate := 0, toAccountId := some "accB",
    fromAccountId := some "accA" }

/-- A store with both accounts of the pair transfer. -/
def pairDb : DB :=
  { accounts := [chk "accA" "u1" 300, chk "accB" "u1" 200],
    transactions := [pairTransferTx], categories := [], nextTxId := 4 }

/-! Arithmetic facts about the calendar model. -/

lemma isLeap_iff (y : Nat) :
    isLeap y = true ↔ ((y % 4 = 0 ∧ y % 100 ≠ 0) ∨ y % 400 = 0) := by
  unfold isLeap
  simp [Bool.or_eq_true, Bool.and_eq_true, beq_iff_eq, bne_iff_ne]

lemma leapsBefore_succ (y : Nat) :
    leapsBefore (y + 1) = leapsBefore y + (if isLeap y then 1 else 0) := by
  cases h : isLeap y
  · have hc : ¬((y % 4 = 0 ∧ y % 100 ≠ 0) ∨ y % 400 = 0) := by
      rw [← isLeap_iff, h]
      simp
    simp only [Bool.false_eq_true, if_false]
    unfold leapsBefore
    omega
  · have hc : (y % 4 = 0 ∧ y % 100 ≠ 0) ∨ y % 400 = 0 := (isLeap_iff y).mp h
    simp only [if_true]
    unfold leapsBefore
    omega

lemma daysBeforeYear_succ (y : Nat) :
    daysBeforeYear (y + 1) = daysBeforeYear y + 365 + (if isLeap y then 1 else 0) := by
  unfold daysBeforeYear
  rw [leapsBefore_succ]
  ring

lemma daysBeforeMonth_succ (y m : Nat) (hm : 1 ≤ m) :
    daysBeforeMonth y (m + 1) = daysBeforeMonth y m + daysInMonth y m := by
  obtain ⟨k, rfl⟩ : ∃ k, m = k + 1 := ⟨m - 1, by omega⟩
  unfold daysBeforeMonth
  simp [List.range_succ]

lemma daysBeforeMonth_13 (y : Nat) :
    daysBeforeMonth y 13 = 365 + (if isLeap y then 1 else 0) := by
  cases h : isLeap y <;>
    simp only [daysBeforeMonth] <;>
    norm_num [List.range_succ, daysInMonth, h]

lemma daysBeforeYear_succ_eq (y : Nat) :
    daysBeforeYear (y + 1) = daysBeforeYear y + daysBeforeMonth y 13 := by
  rw [daysBeforeYear_succ, daysBeforeMonth_13]
  ring

/-! Helper lemmas about the list-backed store. -/

lemma find?_map_ite_self {α : Type} (p : α → Bool) (a2 : α) (hp : p a2 = true)
    (l : List α) (a : α) (h : l.find? p = some a) :
    (l.map (fun b => if p b then a2 else b)).find? p = some a2 := by
  induction l with
  | nil => simp at h
  | cons b l ih =>
    by_cases hb : p b = true
    · simp only [List.map_cons, if_pos hb]
      exact List.find?_cons_of_pos _ hp
    · rw [List.find?_cons_of_neg _ hb] at h
      simp only [List.map_cons, if_neg hb]
      rw [List.find?_cons_of_neg _ hb]
      exact ih h

lemma find?_map_ite_other {α : Type} (p q : α → Bool) (a2 : α)
    (hq : q a2 = false) (hdisj : ∀ b, q b = true → p b = false)
    (l : List α) :
    (l.map (fun b => if p b then a2 else b)).find? q = l.find? q := by
  induction l with
  | nil => rfl
  | cons b l ih =>
    by_cases hb : p b = true
    · have hqb : q b = false := by
        cases hq2 : q b
        · rfl
        · rw [hdisj b hq2] at hb
          exact absurd hb (by simp)
      simp only [List.map_cons, if_pos hb]
      rw [List.find?_cons_of_neg _ (by simp [hq]),
        List.find?_cons_of_neg _ (by simp [hqb])]
      exact ih
    · simp only [List.map_cons, if_neg hb]
      cases hq2 : q b
      · rw [List.find?_cons_of_neg _ (by simp [hq2]),
          List.find?_cons_of_neg _ (by simp [hq2])]
        exact ih
      · rw [List.find?_cons_of_pos _ hq2, List.find?_cons_of_pos _ hq2]

lemma find?_filter_not {α : Type} (p : α → Bool) (l : List α) :
    (l.filter (fun b => !(p b))).find? p = none := by
  induction l with
  | nil => rfl
  | cons b l ih =>
    by_cases hb : p b = true
    · simp only [List.filter_cons, hb, Bool.not_true, if_neg]
      simp only [Bool.false_eq_true, if_false]
      exact ih
    · have hb2 : p b = false := by cases hq : p b <;> simp [hq] at hb ⊢
      simp only [List.filter_cons, hb2, Bool.not_false, if_pos]
      rw [List.find?_cons_of_neg _ (by simp [hb2])]
      exact ih

lemma find?_tx_eq_none_of_all_lt (l : List Transaction) (n : Nat)
    (h : l.all (fun t => t.id < n) = true) :
    l.find? (fun t => t.id == n) = none := by
  induction l with
  | nil => rfl
  | cons t l ih =>
    simp only [List.all_cons, Bool.and_eq_true] at h
    have hlt : t.id < n := by simpa using h.1
    rw [List.find?_cons_of_neg _ (by simp [Nat.ne_of_lt hlt])]
    exact ih h.2

lemma filter_tx_ne_of_all_lt (l : List Transaction) (n : Nat)
    (h : l.all (fun t => t.id < n) = true) :
    l.filter (fun t => !(t.id == n)) = l := by
  induction l with
  | nil => rfl
  | cons t l ih =>
    simp only [List.all_cons, Bool.and_eq_true] at h
    have hlt : t.id < n := by simpa using h.1
    simp only [List.filter_cons, Nat.ne_of_lt hlt, beq_iff_eq, if_pos,
      Bool.not_eq_true']
    rw [if_pos (by simp [Nat.ne_of_lt hlt])]
    rw [ih h.2]

lemma AccountRepo.findById_id (db : DB) (x : String) (a : Account)
    (h : AccountRepo.findById db x = some a) : a.id = x := by
  have := List.find?_some h
  simpa [beq_iff_eq] using this

lemma AccountRepo.updateBalance_transactions (db : DB) (x : String) (v : Money) :
    (AccountRepo.updateBalance db x v).2.transactions = db.transactions := by
  unfold AccountRepo.updateBalance
  cases h : AccountRepo.findById db x <;> simp

lemma AccountRepo.updateBalance_categories (db : DB) (x : String) (v : Money) :
    (AccountRepo.updateBalance db x v).2.categories = db.categories := by
  unfold AccountRepo.updateBalance
  cases h : AccountRepo.findById db x <;> simp

lemma AccountRepo.updateBalance_nextTxId (db : DB) (x : String) (v : Money) :
    (AccountRepo.updateBalance db x v).2.nextTxId = db.nextTxId := by
  unfold AccountRepo.updateBalance
  cases h : AccountRepo.findById db x <;> simp

lemma AccountRepo.updateBalance_findById_self (db : DB) (x : String) (v : Money)
    (a : Account) (h : AccountRepo.findById db x = some a) :
    AccountRepo.findById (AccountRepo.updateBalance db x v).2 x
      = some { a with balance := v } := by
  have hid : a.id = x := AccountRepo.findById_id db x a h
  simp only [AccountRepo.updateBalance, h]
  unfold AccountRepo.findById
  exact find?_map_ite_self _ _ (by simp [hid]) _ _ h

lemma AccountRepo.updateBalance_findById_other (db : DB) (x : String) (v : Money)
    (y : String) (hxy : y ≠ x) :
    AccountRepo.findById (AccountRepo.updateBalance db x v).2 y
      = AccountRepo.findById db y := by
  unfold AccountRepo.updateBalance
  cases h : AccountRepo.findById db x with
  | none => simp
  | some a =>
    have hid : a.id = x := AccountRepo.findById_id db x a h
    simp only []
    show AccountRepo.findById _ y = _
    unfold AccountRepo.findById
    apply find?_map_ite_other
    · simp [hid]
      exact fun hyx => absurd hyx.symm hxy
    · intro b hqb
      have hby : b.id = y := by simpa [beq_iff_eq] using hqb
      simp [hby]
      exact hxy

lemma find?_append_singleton_self (l : List Transaction) (t : Transaction)
    (n : Nat) (hall : l.all (fun u2 => u2.id < n) = true) (hid : t.id = n) :
    (l ++ [t]).find? (fun u2 => u2.id == n) = some t := by
  rw [List.find?_append, find?_tx_eq_none_of_all_lt l n hall]
  simp [List.find?, hid]

lemma filter_append_singleton (l : List Transaction) (t : Transaction)
    (n : Nat) (hall : l.all (fun u2 => u2.id < n) = true) (hid : t.id = n) :
    (l ++ [t]).filter (fun u2 => !(u2.id == n)) = l := by
  rw [List.filter_append, filter_tx_ne_of_all_lt l n hall]
  simp [List.filter, hid]

/-- Evaluation of createTransaction on an expense against an existing owned
account: the balance is overwritten with balance - amount with no check,
and the row is appended under the next store id. -/
lemma createTransaction_expense_eq (db : DB) (u x : String) (A : Money)
    (d : String) (c : Option String) (td : Option ℤ) (now : ℤ) (ax : Account)
    (hx : AccountRepo.findById db x = some ax) (hox : ax.userId = u) :
    ∃ t : Transaction,
      TransactionService.createTransaction db u
        { accountId := x, categoryId := c, type := TransactionType.expense,
          amount := A, description := d, transactionDate := td,
          toAccountId := none } now
      = (.ok t, ⟨(AccountRepo.updateBalance db x (ax.balance - A)).2.accounts,
          db.transactions ++ [t], db.categories, db.nextTxId + 1⟩) ∧
      t.id = db.nextTxId ∧ t.userId = u ∧ t.accountId = x ∧
      t.type = TransactionType.expense ∧ t.amount = A := by
  have hb : (ax.userId == u) = true := by simp [hox]
  simp only [TransactionService.createTransaction,
    TransactionService.createTransactionWith, hx, Account.isOwnedBy, hb,
    Bool.not_true, Bool.false_eq_true, if_false, if_true, TransactionRepo.save,
    Transaction.create, reduceCtorEq, AccountRepo.updateBalance_transactions,
    AccountRepo.updateBalance_categories, AccountRepo.updateBalance_nextTxId]
  exact ⟨_, rfl, rfl, rfl, rfl, rfl, rfl⟩

/-- Evaluation of createTransaction on a transfer against two existing owned
accounts: both balances are written from the values read before either
write, and the row is appended under the next store id. -/
lemma createTransaction_transfer_eq (db : DB) (u x y : String) (A : Money)
    (d : String) (c : Option String) (td : Option ℤ) (now : ℤ)
    (ax ay : Account)
    (hx : AccountRepo.findById db x = some ax)
    (hy : AccountRepo.findById db y = some ay)
    (hox : ax.userId = u) (hoy : ay.userId = u) :
    ∃ t : Transaction,
      TransactionService.createTransaction db u
        { accountId := x, categoryId := c, type := TransactionType.transfer,
          amount := A, description := d, transactionDate := td,
          toAccountId := some y } now
      = (.ok t, ⟨(AccountRepo.updateBalance
            (AccountRepo.updateBalance db x (ax.balance - A)).2 y
            (ay.balance + A)).2.accounts,
          db.transactions ++ [t], db.categories, db.nextTxId + 1⟩) ∧
      t.id = db.nextTxId ∧ t.userId = u ∧ t.accountId = x ∧
      t.type = TransactionType.transfer ∧ t.amount = A ∧
      t.toAccountId = some y := by
  have hbx : (ax.userId == u) = true := by simp [hox]
  have hby : (ay.userId == u) = true := by simp [hoy]
  simp only [TransactionService.createTransaction,
    TransactionService.createTransactionWith, hx, hy, Account.isOwnedBy, hbx,
    hby, Bool.not_true, Bool.false_eq_true, if_false, if_true,
    TransactionRepo.save, Transaction.create, reduceCtorEq,
    AccountRepo.updateBalance_transactions,
    AccountRepo.updateBalance_categories, AccountRepo.updateBalance_nextTxId]
  exact ⟨_, rfl, rfl, rfl, rfl, rfl, rfl, rfl⟩

/-- Evaluation of deleteTransaction on an owned expense row whose account
still exists: the amount is credited back and the row removed. -/
lemma deleteTransaction_expense_eq (db : DB) (u : String) (n : Nat)
    (t : Transaction) (a : Account)
    (ht : TransactionRepo.findById db n = some t) (hown : t.userId = u)
    (htype : t.type = TransactionType.expense)
    (ha : AccountRepo.findById db t.accountId = some a) :
    TransactionService.deleteTransaction db n u
      = (.ok (), ⟨(AccountRepo.updateBalance db t.accountId
            (a.balance + t.amount)).2.accounts,
          db.transactions.filter (fun u2 => !(u2.id == n)), db.categories,
          db.nextTxId⟩) := by
  have hb : (t.userId == u) = true := by simp [hown]
  have he : t.isExpense = true := by simp [Transaction.isExpense, htype]
  simp only [TransactionService.deleteTransaction,
    TransactionService.getTransaction, ht, Transaction.isOwnedBy, hb,
    Bool.not_true, Bool.false_eq_true, if_false, if_true, ha, he,
    TransactionRepo.delete, AccountRepo.updateBalance_transactions,
    AccountRepo.updateBalance_categories, AccountRepo.updateBalance_nextTxId]

/-- Evaluation of deleteTransaction on an owned transfer row when both
referenced accounts still exist: the source is credited back and the
destination debited, both from the balances read before either write, and
the row is removed. -/
lemma deleteTransaction_transfer_eq (db : DB) (u y : String) (n : Nat)
    (t : Transaction) (a b : Account)
    (ht : TransactionRepo.findById db n = some t) (hown : t.userId = u)
    (htype : t.type = TransactionType.transfer)
    (hto : t.toAccountId = some y)
    (ha : AccountRepo.findById db t.accountId = some a)
    (hb2 : AccountRepo.findById db y = some b) :
    TransactionService.deleteTransaction db n u
      = (.ok (), ⟨(AccountRepo.updateBalance
            (AccountRepo.updateBalance db t.accountId
              (a.balance + t.amount)).2 y (b.balance - t.amount)).2.accounts,
          db.transactions.filter (fun u2 => !(u2.id == n)), db.categories,
          db.nextTxId⟩) := by
  have hb : (t.userId == u) = true := by simp [hown]
  have he : t.isExpense = false := by simp [Transaction.isExpense, htype]
  have hi : t.isIncome = false := by simp [Transaction.isIncome, htype]
  have htr : t.isTransfer = true := by simp [Transaction.isTransfer, htype]
  simp only [TransactionService.deleteTransaction,
    TransactionService.getTransaction, ht, Transaction.isOwnedBy, hb,
    Bool.not_true, Bool.false_eq_true, if_false, if_true, ha, hb2, he, hi,
    htr, hto, TransactionRepo.delete, AccountRepo.updateBalance_transactions,
    AccountRepo.updateBalance_categories, AccountRepo.updateBalance_nextTxId]

/-- Evaluation of deleteTransaction when the primary account has vanished:
no balance is touched and the row is still removed. -/
lemma deleteTransaction_vanished_account_eq (db : DB) (u : String) (n : Nat)
    (t : Transaction)
    (ht : TransactionRepo.findById db n = some t) (hown : t.userId = u)
    (ha : AccountRepo.findById db t.accountId = none) :
    TransactionService.deleteTransaction db n u
      = (.ok (), ⟨db.accounts,
          db.transactions.filter (fun u2 => !(u2.id == n)), db.categories,
          db.nextTxId⟩) := by
  have hb : (t.userId == u) = true := by simp [hown]
  simp only [TransactionService.deleteTransaction,
    TransactionService.getTransaction, ht, Transaction.isOwnedBy, hb,
    Bool.not_true, Bool.false_eq_true, if_false, if_true, ha,
    TransactionRepo.delete]

/-- Evaluation of deleteTransaction on a transfer row whose destination has
vanished: neither leg is reversed and the row is still removed. -/
lemma deleteTransaction_vanished_destination_eq (db : DB) (u y : String)
    (n : Nat) (t : Transaction) (a : Account)
    (ht : TransactionRepo.findById db n = some t) (hown : t.userId = u)
    (htype : t.type = TransactionType.transfer)
    (hto : t.toAccountId = some y)
    (ha : AccountRepo.findById db t.accountId = some a)
    (hy : AccountRepo.findById db y = none) :
    TransactionService.deleteTransaction db n u
      = (.ok (), ⟨db.accounts,
          db.transactions.filter (fun u2 => !(u2.id == n)), db.categories,
          db.nextTxId⟩) := by
  have hb : (t.userId == u) = true := by simp [hown]
  have he : t.isExpense = false := by simp [Transaction.isExpense, htype]
  have hi : t.isIncome = false := by simp [Transaction.isIncome, htype]
  have htr : t.isTransfer = true := by simp [Transaction.isTransfer, htype]
  simp only [TransactionService.deleteTransaction,
    TransactionService.getTransaction, ht, Transaction.isOwnedBy, hb,
    Bool.not_true, Bool.false_eq_true, if_false, if_true, ha, he, hi, htr,
    hto, hy, TransactionRepo.delete]

lemma jsTime_start (y m : Nat) (h1 : 1 ≤ m) (h2 : m ≤ 12) :
    jsTime y (m - 1) 1 0 0 0 = specMonthStart y m := by
  simp only [jsTime, specMonthStart]
  have hY : (12 * y + (m - 1)) / 12 = y := by omega
  have hM : (12 * y + (m - 1)) % 12 + 1 = m := by omega
  rw [hY, hM]
  push_cast
  ring

lemma jsTime_end (y m : Nat) (h1 : 1 ≤ m) (h2 : m ≤ 12) :
    jsTime y m 0 23 59 59 = specMonthEnd y m := by
  rcases Nat.lt_or_ge m 12 with h11 | h12
  · simp only [jsTime, specMonthEnd]
    have hY : (12 * y + m) / 12 = y := by omega
    have hM : (12 * y + m) % 12 + 1 = m + 1 := by omega
    rw [hY, hM, daysBeforeMonth_succ y m h1]
    push_cast
    ring
  · have hm : m = 12 := by omega
    subst hm
    simp only [jsTime, specMonthEnd]
    have hY : (12 * y + 12) / 12 = y + 1 := by omega
    have hM : (12 * y + 12) % 12 + 1 = 1 := by omega
    rw [hY, hM, daysBeforeYear_succ_eq y,
      show daysBeforeMonth y 13 = daysBeforeMonth y 12 + daysInMonth y 12 from
        daysBeforeMonth_succ y 12 (by omega),
      show daysBeforeMonth (y + 1) 1 = 0 from rfl]
    push_cast
    ring

/-! Claim theorems. -/

/-- C1: the claimed invariant (non-credit accounts never store a negative
balance after createTransaction, deleteTransaction or updateAccountBalance)
is violated by the code: createTransaction of an expense of 10000 on a
checking account holding 500 succeeds and stores the balance -9500, because
the service writes through the repository updateBalance, which performs no
invariant check, instead of the entity guard. -/
theorem c1_createTransaction_breaks_nonnegative_invariant :
    (TransactionService.createTransaction (oneAccountDb 500) "u1"
        { accountId := "acc1", type := TransactionType.expense, amount := 10000,
          description := "big spend" } 0).1.isOk = true ∧
    AccountRepo.findById
        (TransactionService.createTransaction (oneAccountDb 500) "u1"
          { accountId := "acc1", type := TransactionType.expense, amount := 10000,
            description := "big spend" } 0).2 "acc1"
      = some (chk "acc1" "u1" (-9500)) ∧
    (chk "acc1" "u1" (-9500)).accountType ≠ AccountType.credit ∧
    (chk "acc1" "u1" (-9500)).balance < 0 := by
  refine ⟨rfl, rfl, by decide, by norm_num [chk]⟩

/-- C2: an expense exceeding the balance of a non-credit account is not
rejected: on an account holding 300, createTransaction of an expense of
10000 succeeds (no InvalidBalanceOperation) and leaves the stored balance
at -9700 instead of 300 unchanged. -/
theorem c2_overdraft_expense_not_rejected :
    (TransactionService.createTransaction (oneAccountDb 300) "u1"
        { accountId := "acc1", type := TransactionType.expense, amount := 10000,
          description := "overdraft" } 0).1.isOk = true ∧
    AccountRepo.findById
        (TransactionService.createTransaction (oneAccountDb 300) "u1"
          { accountId := "acc1", type := TransactionType.expense, amount := 10000,
            description := "overdraft" } 0).2 "acc1"
      = some (chk "acc1" "u1" (-9700)) := by
  exact ⟨rfl, rfl⟩

/-- C3: createTransaction is not atomic: when the storage save of the
transaction row fails after the balance delta has been written, the call
returns an error yet the account balance has moved from 500 to 400 and no
transaction row exists, leaving exactly the partial state the claim rules
out. -/
theorem c3_failed_create_leaves_partial_state :
    (TransactionService.createTransactionWith false (oneAccountDb 500) "u1"
        { accountId := "acc1", type := TransactionType.expense, amount := 100,
          description := "groceries" } 0).1
      = .error (ApiError.storage "transaction row save failed") ∧
    AccountRepo.findById
        (TransactionService.createTransactionWith false (oneAccountDb 500) "u1"
          { accountId := "acc1", type := TransactionType.expense, amount := 100,
            description := "groceries" } 0).2 "acc1"
      = some (chk "acc1" "u1" 400) ∧
    (TransactionService.createTransactionWith false (oneAccountDb 500) "u1"
        { accountId := "acc1", type := TransactionType.expense, amount := 100,
          description := "groceries" } 0).2.transactions = [] ∧
    AccountRepo.findById (oneAccountDb 500) "acc1" = some (chk "acc1" "u1" 500) := by
  exact ⟨rfl, rfl, rfl, rfl⟩

/-- C6: getMonthlyTotals equals the totals the specification words demand:
income is the sum of the amounts of the type income transactions of the
user dated inside the inclusive window from the first day of the month at
00:00:00 through the last day at 23:59:59, expense the analogous sum for
type expense, and net their difference; transfers match neither type
filter and an empty selection sums to zero, so no input yields an error. -/
theorem c6_monthly_totals_match_spec (db : DB) (u : String) (y m : Nat)
    (h1 : 1 ≤ m) (h2 : m ≤ 12) :
    TransactionRepo.getMonthlyTotals db u y m = specMonthlyTotals db u y m := by
  simp only [TransactionRepo.getMonthlyTotals, specMonthlyTotals]
  rw [jsTime_start y m h1 h2, jsTime_end y m h1 h2]
  rfl

/-- C6 witness: the spec scenario, one income of 80000 on September 1, 2024
and one expense of 1500 on September 10; the September query matches the
spec sums and evaluates to income 80000, expense 1500, net 78500, while
August evaluates to all zeros. -/
theorem c6_monthly_totals_witness :
    TransactionRepo.getMonthlyTotals statsDb "u1" 2024 9
      = specMonthlyTotals statsDb "u1" 2024 9 ∧
    TransactionRepo.getMonthlyTotals statsDb "u1" 2024 9
      = { income := 80000, expense := 1500, net := 78500 } ∧
    TransactionRepo.getMonthlyTotals statsDb "u1" 2024 8
      = { income := 0, expense := 0, net := 0 } := by
  refine ⟨c6_monthly_totals_match_spec statsDb "u1" 2024 9 (by decide) (by decide),
    by decide, by decide⟩

/-- C7 counterexample: not every read-by-id operation checks existence
before ownership: createTransaction with an accountId that exists nowhere
fails with AccessDenied (ForbiddenException), not NotFound. -/
theorem c7_counterexample_missing_account_gives_forbidden :
    (TransactionService.createTransaction emptyDb "u1"
        { accountId := "ghost", type := TransactionType.expense, amount := 5,
          description := "x" } 0).1
      = .error (ApiError.forbidden "Access denied to this account") ∧
    resultIsNotFound
        (TransactionService.createTransaction emptyDb "u1"
          { accountId := "ghost", type := TransactionType.expense, amount := 5,
            description := "x" } 0).1 = false := by
  exact ⟨rfl, rfl⟩

/-- C7 amended: the dedicated by-id operations of each component
(getTransaction and its callers, getAccountById and its callers,
getCategory and its callers) check existence first, failing NotFound for a
missing id, and only then ownership, failing AccessDenied for a foreign
owner; but the account lookups embedded in createTransaction collapse the
absent case and the foreign case into one AccessDenied failure. -/
theorem c7_amended_existence_then_ownership (db : DB) (tid : Nat)
    (aid cid u : String) (dto : CreateTransactionDto) (now : ℤ) :
    (TransactionRepo.findById db tid = none →
      TransactionService.getTransaction db tid u
        = .error (ApiError.notFound "Transaction not found")) ∧
    (∀ t : Transaction, TransactionRepo.findById db tid = some t →
      t.userId ≠ u →
      TransactionService.getTransaction db tid u
        = .error (ApiError.forbidden "Access denied")) ∧
    (AccountRepo.findById db aid = none →
      AccountService.getAccountById db aid u
        = .error (ApiError.notFound "Account not found")) ∧
    (∀ a : Account, AccountRepo.findById db aid = some a → a.userId ≠ u →
      AccountService.getAccountById db aid u
        = .error (ApiError.forbidden "Access denied to this account")) ∧
    (CategoryRepo.findById db cid = none →
      CategoryService.getCategory db cid u
        = .error (ApiError.notFound "Category not found")) ∧
    (∀ c : Category, CategoryRepo.findById db cid = some c → c.userId ≠ u →
      CategoryService.getCategory db cid u
        = .error (ApiError.forbidden "Access denied to this category")) ∧
    (AccountRepo.findById db dto.accountId = none →
      (TransactionService.createTransaction db u dto now).1
        = .error (ApiError.forbidden "Access denied to this account")) := by
  refine ⟨?_, ?_, ?_, ?_, ?_, ?_, ?_⟩
  · intro h
    simp [TransactionService.getTransaction, h]
  · intro t ht hne
    simp [TransactionService.getTransaction, ht, Transaction.isOwnedBy, hne]
  · intro h
    simp [AccountService.getAccountById, h]
  · intro a ha hne
    simp [AccountService.getAccountById, ha, Account.isOwnedBy, hne]
  · intro h
    simp [CategoryService.getCategory, h]
  · intro c hc hne
    simp [CategoryService.getCategory, hc, Category.isOwnedBy, hne]
  · intro h
    simp [TransactionService.createTransaction,
      TransactionService.createTransactionWith, h]

/-- C7 amended witness: on the empty store every dedicated getter fails
NotFound, a foreign caller gets AccessDenied on an existing transaction,
and createTransaction on a missing account fails AccessDenied. -/
theorem c7_amended_witness :
    TransactionService.getTransaction emptyDb 5 "u1"
      = .error (ApiError.notFound "Transaction not found") ∧
    AccountService.getAccountById emptyDb "ghost" "u1"
      = .error (ApiError.notFound "Account not found") ∧
    CategoryService.getCategory emptyDb "ghost" "u1"
      = .error (ApiError.notFound "Category not found") ∧
    (TransactionService.createTransaction emptyDb "u1"
        { accountId := "ghost", type := TransactionType.expense, amount := 5,
          description := "x" } 0).1
      = .error (ApiError.forbidden "Access denied to this account") ∧
    TransactionService.getTransaction statsDb 0 "u2"
      = .error (ApiError.forbidden "Access denied") := by
  have h := c7_amended_existence_then_ownership emptyDb 5 "ghost" "ghost" "u1"
    { accountId := "ghost", type := TransactionType.expense, amount := 5,
      description := "x" } 0
  have h2 := c7_amended_existence_then_ownership statsDb 0 "acc1" "none" "u2"
    { accountId := "acc1", type := TransactionType.expense, amount := 5,
      description := "x" } 0
  exact ⟨h.1 rfl, h.2.2.1 rfl, h.2.2.2.2.1 rfl, h.2.2.2.2.2.2 rfl,
    h2.2.1 septIncomeTx rfl (by decide)⟩

/-- C9: updateTransaction leaves amount, type and all account references of
the target transaction unchanged for every patch (the patch shape only
carries categoryId, description and transactionDate) and never touches the
accounts of the store. -/
theorem c9_update_frame (db : DB) (tid : Nat) (u : String)
    (dto : UpdateTransactionDto) (t : Transaction)
    (ht : TransactionRepo.findById db tid = some t) (hown : t.userId = u) :
    ∃ t2, (TransactionService.updateTransaction db tid u dto).1 = .ok t2 ∧
      t2.amount = t.amount ∧ t2.type = t.type ∧
      t2.accountId = t.accountId ∧ t2.toAccountId = t.toAccountId ∧
      t2.fromAccountId = t.fromAccountId ∧
      (TransactionService.updateTransaction db tid u dto).2.accounts
        = db.accounts := by
  have hget : TransactionService.getTransaction db tid u = .ok t := by
    simp [TransactionService.getTransaction, ht, Transaction.isOwnedBy, hown]
  simp only [TransactionService.updateTransaction, hget, TransactionRepo.update, ht]
  exact ⟨_, rfl, rfl, rfl, rfl, rfl, rfl, trivial⟩

/-- C9 witness: patching the description of an existing expense leaves its
amount, type and account references intact and the accounts untouched. -/
theorem c9_update_frame_witness :
    ∃ t2, (TransactionService.updateTransaction deleteDb 7 "u1"
        { description := some "renamed" }).1 = .ok t2 ∧
      t2.amount = delExpenseTx.amount ∧ t2.type = delExpenseTx.type ∧
      t2.accountId = delExpenseTx.accountId ∧
      t2.toAccountId = delExpenseTx.toAccountId ∧
      t2.fromAccountId = delExpenseTx.fromAccountId ∧
      (TransactionService.updateTransaction deleteDb 7 "u1"
        { description := some "renamed" }).2.accounts = deleteDb.accounts :=
  c9_update_frame deleteDb 7 "u1" { description := some "renamed" }
    delExpenseTx rfl rfl

/-- C10: a self transfer (toAccountId equal to accountId) on an existing
owned account of balance B succeeds and leaves the stored balance at B + A:
both legs are computed from the balance read before any write, and the
destination write overwrites the source write. -/
theorem c10_self_transfer (db : DB) (u x : String) (A : Money)
    (d : String) (c : Option String) (td : Option ℤ) (now : ℤ) (ax : Account)
    (hx : AccountRepo.findById db x = some ax) (hox : ax.userId = u) :
    ∃ t, (TransactionService.createTransaction db u
        { accountId := x, categoryId := c, type := TransactionType.transfer,
          amount := A, description := d, transactionDate := td,
          toAccountId := some x } now).1 = .ok t ∧
      AccountRepo.findById (TransactionService.createTransaction db u
        { accountId := x, categoryId := c, type := TransactionType.transfer,
          amount := A, description := d, transactionDate := td,
          toAccountId := some x } now).2 x
        = some { ax with balance := ax.balance + A } := by
  have h1 := AccountRepo.updateBalance_findById_self db x (ax.balance - A) ax hx
  have h2 := AccountRepo.updateBalance_findById_self
    (AccountRepo.updateBalance db x (ax.balance - A)).2 x (ax.balance + A) _ h1
  simp only [TransactionService.createTransaction,
    TransactionService.createTransactionWith, hx, Account.isOwnedBy, hox,
    beq_self_eq_true, Bool.not_true, Bool.false_eq_true, if_false, if_true,
    TransactionRepo.save]
  refine ⟨_, rfl, ?_⟩
  simp only [hox] at h2
  exact h2

/-- C10 witness: a self transfer of 200 on acc1 holding 500 succeeds and
stores the balance 700. -/
theorem c10_self_transfer_witness :
    ∃ t, (TransactionService.createTransaction (oneAccountDb 500) "u1"
        { accountId := "acc1", categoryId := none,
          type := TransactionType.transfer, amount := 200, description := "self",
          transactionDate := none, toAccountId := some "acc1" } 0).1 = .ok t ∧
      AccountRepo.findById (TransactionService.createTransaction (oneAccountDb 500) "u1"
        { accountId := "acc1", categoryId := none,
          type := TransactionType.transfer, amount := 200, description := "self",
          transactionDate := none, toAccountId := some "acc1" } 0).2 "acc1"
        = some { chk "acc1" "u1" 500 with balance := (chk "acc1" "u1" 500).balance + 200 } :=
  c10_self_transfer (oneAccountDb 500) "u1" "acc1" 200 "self" none none 0
    (chk "acc1" "u1" 500) rfl rfl

/-- C5: round trip: a successful expense of amount A on an existing owned
account, immediately followed by deleteTransaction of the created row,
returns the stored balance exactly to its pre-create value and removes the
row from the store. -/
theorem c5_expense_round_trip (db : DB) (u x : String) (A : Money)
    (d : String) (c : Option String) (td : Option ℤ) (now : ℤ) (ax : Account)
    (hx : AccountRepo.findById db x = some ax) (hox : ax.userId = u)
    (hwf : DB.WF db = true) :
    ∃ t db1, TransactionService.createTransaction db u
        { accountId := x, categoryId := c, type := TransactionType.expense,
          amount := A, description := d, transactionDate := td,
          toAccountId := none } now = (.ok t, db1) ∧
      AccountRepo.findById db1 x = some { ax with balance := ax.balance - A } ∧
      ∃ db2, TransactionService.deleteTransaction db1 t.id u = (.ok (), db2) ∧
        AccountRepo.findById db2 x = some ax ∧
        TransactionRepo.findById db2 t.id = none ∧
        db2.transactions = db.transactions := by
  obtain ⟨t, hcreate, hid, huser, hacc, htype, hamt⟩ :=
    createTransaction_expense_eq db u x A d c td now ax hx hox
  have hall : db.transactions.all (fun u2 => u2.id < t.id) = true := by
    rw [hid]; exact hwf
  have hax1 := AccountRepo.updateBalance_findById_self db x (ax.balance - A) ax hx
  have hfind : TransactionRepo.findById
      (⟨(AccountRepo.updateBalance db x (ax.balance - A)).2.accounts,
        db.transactions ++ [t], db.categories, db.nextTxId + 1⟩ : DB) t.id
      = some t :=
    find?_append_singleton_self db.transactions t t.id hall rfl
  have hax1b : AccountRepo.findById
      (⟨(AccountRepo.updateBalance db x (ax.balance - A)).2.accounts,
        db.transactions ++ [t], db.categories, db.nextTxId + 1⟩ : DB) t.accountId
      = some { ax with balance := ax.balance - A } := by
    rw [hacc]; exact hax1
  have hdel := deleteTransaction_expense_eq
    (⟨(AccountRepo.updateBalance db x (ax.balance - A)).2.accounts,
      db.transactions ++ [t], db.categories, db.nextTxId + 1⟩ : DB) u t.id t
    { ax with balance := ax.balance - A } hfind huser htype hax1b
  rw [hacc] at hdel
  have hbal : ({ ax with balance := ax.balance - A } : Account).balance + t.amount
      = ax.balance := by
    rw [hamt]
    show ax.balance - A + A = ax.balance
    ring
  rw [hbal] at hdel
  have hax2 := AccountRepo.updateBalance_findById_self
    (⟨(AccountRepo.updateBalance db x (ax.balance - A)).2.accounts,
      db.transactions ++ [t], db.categories, db.nextTxId + 1⟩ : DB)
    x ax.balance { ax with balance := ax.balance - A } (by exact hax1)
  refine ⟨t, _, hcreate, ?_, ?_⟩
  · exact hax1
  refine ⟨_, hdel, ?_, ?_, ?_⟩
  · exact hax2
  · show ((db.transactions ++ [t]).filter (fun u2 => !(u2.id == t.id))).find?
        (fun u2 => u2.id == t.id) = none
    exact find?_filter_not _ _
  · show (db.transactions ++ [t]).filter (fun u2 => !(u2.id == t.id))
        = db.transactions
    exact filter_append_singleton db.transactions t t.id hall rfl

/-- C5 witness: an expense of 150 on acc1 holding 1000 moves the balance to
850; deleting the created row restores 1000 and removes the row. -/
theorem c5_expense_round_trip_witness :
    ∃ t db1, TransactionService.createTransaction (oneAccountDb 1000) "u1"
        { accountId := "acc1", categoryId := none,
          type := TransactionType.expense, amount := 150, description := "food",
          transactionDate := none, toAccountId := none } 0 = (.ok t, db1) ∧
      AccountRepo.findById db1 "acc1"
        = some { chk "acc1" "u1" 1000 with
            balance := (chk "acc1" "u1" 1000).balance - 150 } ∧
      ∃ db2, TransactionService.deleteTransaction db1 t.id "u1" = (.ok (), db2) ∧
        AccountRepo.findById db2 "acc1" = some (chk "acc1" "u1" 1000) ∧
        TransactionRepo.findById db2 t.id = none ∧
        db2.transactions = (oneAccountDb 1000).transactions :=
  c5_expense_round_trip (oneAccountDb 1000) "u1" "acc1" 150 "food" none none 0
    (chk "acc1" "u1" 1000) rfl rfl rfl

/-- C4: transfer symmetry: a successful transfer of amount A from account X
to a distinct account Y of the same user decreases the stored balance of X
by A and increases that of Y by A; deleting the created row restores both
balances exactly and removes the row. -/
theorem c4_transfer_symmetry (db : DB) (u x y : String) (A : Money)
    (d : String) (c : Option String) (td : Option ℤ) (now : ℤ)
    (ax ay : Account)
    (hx : AccountRepo.findById db x = some ax)
    (hy : AccountRepo.findById db y = some ay)
    (hxy : x ≠ y) (hox : ax.userId = u) (hoy : ay.userId = u)
    (hwf : DB.WF db = true) :
    ∃ t db1, TransactionService.createTransaction db u
        { accountId := x, categoryId := c, type := TransactionType.transfer,
          amount := A, description := d, transactionDate := td,
          toAccountId := some y } now = (.ok t, db1) ∧
      AccountRepo.findById db1 x = some { ax with balance := ax.balance - A } ∧
      AccountRepo.findById db1 y = some { ay with balance := ay.balance + A } ∧
      ∃ db2, TransactionService.deleteTransaction db1 t.id u = (.ok (), db2) ∧
        AccountRepo.findById db2 x = some ax ∧
        AccountRepo.findById db2 y = some ay ∧
        TransactionRepo.findById db2 t.id = none ∧
        db2.transactions = db.transactions := by
  obtain ⟨t, hcreate, hid, huser, hacc, htype, hamt, hto⟩ :=
    createTransaction_transfer_eq db u x y A d c td now ax ay hx hy hox hoy
  have hall : db.transactions.all (fun u2 => u2.id < t.id) = true := by
    rw [hid]; exact hwf
  -- balances after the two create-phase writes
  have h1 := AccountRepo.updateBalance_findById_self db x (ax.balance - A) ax hx
  have h2 : AccountRepo.findById
      (AccountRepo.updateBalance db x (ax.balance - A)).2 y = some ay := by
    rw [AccountRepo.updateBalance_findById_other db x (ax.balance - A) y
      (fun h => hxy h.symm)]
    exact hy
  have h3 := AccountRepo.updateBalance_findById_self
    (AccountRepo.updateBalance db x (ax.balance - A)).2 y (ay.balance + A) ay h2
  have h4 : AccountRepo.findById
      (AccountRepo.updateBalance
        (AccountRepo.updateBalance db x (ax.balance - A)).2 y
        (ay.balance + A)).2 x
      = some { ax with balance := ax.balance - A } := by
    rw [AccountRepo.updateBalance_findById_other
      (AccountRepo.updateBalance db x (ax.balance - A)).2 y (ay.balance + A) x hxy]
    exact h1
  -- the post-create store and the delete call on it
  have hfind : TransactionRepo.findById
      (⟨(AccountRepo.updateBalance
          (AccountRepo.updateBalance db x (ax.balance - A)).2 y
          (ay.balance + A)).2.accounts,
        db.transactions ++ [t], db.categories, db.nextTxId + 1⟩ : DB) t.id
      = some t :=
    find?_append_singleton_self db.transactions t t.id hall rfl
  have haxb : AccountRepo.findById
      (⟨(AccountRepo.updateBalance
          (AccountRepo.updateBalance db x (ax.balance - A)).2 y
          (ay.balance + A)).2.accounts,
        db.transactions ++ [t], db.categories, db.nextTxId + 1⟩ : DB) t.accountId
      = some { ax with balance := ax.balance - A } := by
    rw [hacc]; exact h4
  have hayb : AccountRepo.findById
      (⟨(AccountRepo.updateBalance
          (AccountRepo.updateBalance db x (ax.balance - A)).2 y
          (ay.balance + A)).2.accounts,
        db.transactions ++ [t], db.categories, db.nextTxId + 1⟩ : DB) y
      = some { ay with balance := ay.balance + A } := by
    exact h3
  have hdel := deleteTransaction_transfer_eq
    (⟨(AccountRepo.updateBalance
        (AccountRepo.updateBalance db x (ax.balance - A)).2 y
        (ay.balance + A)).2.accounts,
      db.transactions ++ [t], db.categories, db.nextTxId + 1⟩ : DB) u y t.id t
    { ax with balance := ax.balance - A } { ay with balance := ay.balance + A }
    hfind huser htype hto haxb hayb
  rw [hacc] at hdel
  have hbalx : ({ ax with balance := ax.balance - A } : Account).balance + t.amount
      = ax.balance := by
    rw [hamt]
    show ax.balance - A + A = ax.balance
    ring
  have hbaly : ({ ay with balance := ay.balance + A } : Account).balance - t.amount
      = ay.balance := by
    rw [hamt]
    show ay.balance + A - A = ay.balance
    ring
  rw [hbalx, hbaly] at hdel
  -- balances after the two delete-phase writes
  have g1 := AccountRepo.updateBalance_findById_self
    (⟨(AccountRepo.updateBalance
        (AccountRepo.updateBalance db x (ax.balance - A)).2 y
        (ay.balance + A)).2.accounts,
      db.transactions ++ [t], db.categories, db.nextTxId + 1⟩ : DB)
    x ax.balance { ax with balance := ax.balance - A } (by exact h4)
  have g2 : AccountRepo.findById
      (AccountRepo.updateBalance
        (⟨(AccountRepo.updateBalance
            (AccountRepo.updateBalance db x (ax.balance - A)).2 y
            (ay.balance + A)).2.accounts,
          db.transactions ++ [t], db.categories, db.nextTxId + 1⟩ : DB)
        x ax.balance).2 y
      = some { ay with balance := ay.balance + A } := by
    rw [AccountRepo.updateBalance_findById_other _ x ax.balance y
      (fun h => hxy h.symm)]
    exact h3
  have g3 := AccountRepo.updateBalance_findById_self
    (AccountRepo.updateBalance
      (⟨(AccountRepo.updateBalance
          (AccountRepo.updateBalance db x (ax.balance - A)).2 y
          (ay.balance + A)).2.accounts,
        db.transactions ++ [t], db.categories, db.nextTxId + 1⟩ : DB)
      x ax.balance).2 y ay.balance { ay with balance := ay.balance + A } g2
  have g4 : AccountRepo.findById
      (AccountRepo.updateBalance
        (AccountRepo.updateBalance
          (⟨(AccountRepo.updateBalance
              (AccountRepo.updateBalance db x (ax.balance - A)).2 y
              (ay.balance + A)).2.accounts,
            db.transactions ++ [t], db.categories, db.nextTxId + 1⟩ : DB)
          x ax.balance).2 y ay.balance).2 x
      = some ax := by
    rw [AccountRepo.updateBalance_findById_other _ y ay.balance x hxy]
    exact g1
  refine ⟨t, _, hcreate, ?_, ?_, ?_⟩
  · exact h4
  · exact h3
  refine ⟨_, hdel, ?_, ?_, ?_, ?_⟩
  · exact g4
  · exact g3
  · show ((db.transactions ++ [t]).filter (fun u2 => !(u2.id == t.id))).find?
        (fun u2 => u2.id == t.id) = none
    exact find?_filter_not _ _
  · show (db.transactions ++ [t]).filter (fun u2 => !(u2.id == t.id))
        = db.transactions
    exact filter_append_singleton db.transactions t t.id hall rfl

/-- C4 witness: a transfer of 200 from accA holding 500 to accB holding 0
leaves 300 and 200; deleting the created row restores 500 and 0. -/
theorem c4_transfer_symmetry_witness :
    ∃ t db1, TransactionService.createTransaction (twoAccountDb 500 0) "u1"
        { accountId := "accA", categoryId := none,
          type := TransactionType.transfer, amount := 200,
          description := "move", transactionDate := none,
          toAccountId := some "accB" } 0 = (.ok t, db1) ∧
      AccountRepo.findById db1 "accA"
        = some { chk "accA" "u1" 500 with
            balance := (chk "accA" "u1" 500).balance - 200 } ∧
      AccountRepo.findById db1 "accB"
        = some { chk "accB" "u1" 0 with
            balance := (chk "accB" "u1" 0).balance + 200 } ∧
      ∃ db2, TransactionService.deleteTransaction db1 t.id "u1" = (.ok (), db2) ∧
        AccountRepo.findById db2 "accA" = some (chk "accA" "u1" 500) ∧
        AccountRepo.findById db2 "accB" = some (chk "accB" "u1" 0) ∧
        TransactionRepo.findById db2 t.id = none ∧
        db2.transactions = (twoAccountDb 500 0).transactions :=
  c4_transfer_symmetry (twoAccountDb 500 0) "u1" "accA" "accB" 200 "move" none
    none 0 (chk "accA" "u1" 500) (chk "accB" "u1" 0) rfl rfl (by decide) rfl
    rfl rfl

/-- C8: deleteTransaction under vanished accounts: when the primary account
no longer exists the reversal is skipped silently and the row is still
deleted; for a transfer whose destination has vanished neither leg is
applied and the row is still deleted; when the destination still exists
both the source credit and the destination debit are applied and the row is
deleted. -/
theorem c8_delete_with_vanished_accounts (db : DB) (u : String) (n : Nat)
    (t : Transaction)
    (ht : TransactionRepo.findById db n = some t) (hown : t.userId = u) :
    (AccountRepo.findById db t.accountId = none →
      (TransactionService.deleteTransaction db n u).1 = .ok () ∧
      (TransactionService.deleteTransaction db n u).2.accounts = db.accounts ∧
      TransactionRepo.findById
        (TransactionService.deleteTransaction db n u).2 n = none) ∧
    (∀ y a, t.type = TransactionType.transfer → t.toAccountId = some y →
      AccountRepo.findById db t.accountId = some a →
      AccountRepo.findById db y = none →
      (TransactionService.deleteTransaction db n u).1 = .ok () ∧
      (TransactionService.deleteTransaction db n u).2.accounts = db.accounts ∧
      TransactionRepo.findById
        (TransactionService.deleteTransaction db n u).2 n = none) ∧
    (∀ y a b, t.type = TransactionType.transfer → t.toAccountId = some y →
      AccountRepo.findById db t.accountId = some a →
      AccountRepo.findById db y = some b → y ≠ t.accountId →
      (TransactionService.deleteTransaction db n u).1 = .ok () ∧
      AccountRepo.findById (TransactionService.deleteTransaction db n u).2
          t.accountId
        = some { a with balance := a.balance + t.amount } ∧
      AccountRepo.findById (TransactionService.deleteTransaction db n u).2 y
        = some { b with balance := b.balance - t.amount } ∧
      TransactionRepo.findById
        (TransactionService.deleteTransaction db n u).2 n = none) := by
  refine ⟨?_, ?_, ?_⟩
  · intro hnone
    have hdel := deleteTransaction_vanished_account_eq db u n t ht hown hnone
    rw [hdel]
    exact ⟨rfl, rfl, find?_filter_not _ _⟩
  · intro y a htype hto ha hynone
    have hdel := deleteTransaction_vanished_destination_eq db u y n t a ht
      hown htype hto ha hynone
    rw [hdel]
    exact ⟨rfl, rfl, find?_filter_not _ _⟩
  · intro y a b htype hto ha hb hne
    have hdel := deleteTransaction_transfer_eq db u y n t a b ht hown htype
      hto ha hb
    have s1 := AccountRepo.updateBalance_findById_self db t.accountId
      (a.balance + t.amount) a ha
    have s2 : AccountRepo.findById
        (AccountRepo.updateBalance
          (AccountRepo.updateBalance db t.accountId
            (a.balance + t.amount)).2 y (b.balance - t.amount)).2 t.accountId
        = some { a with balance := a.balance + t.amount } := by
      rw [AccountRepo.updateBalance_findById_other _ y (b.balance - t.amount)
        t.accountId (fun h => hne h.symm)]
      exact s1
    have s3 : AccountRepo.findById
        (AccountRepo.updateBalance db t.accountId (a.balance + t.amount)).2 y
        = some b := by
      rw [AccountRepo.updateBalance_findById_other db t.accountId
        (a.balance + t.amount) y hne]
      exact hb
    have s4 := AccountRepo.updateBalance_findById_self
      (AccountRepo.updateBalance db t.accountId (a.balance + t.amount)).2 y
      (b.balance - t.amount) b s3
    rw [hdel]
    exact ⟨rfl, s2, s4, find?_filter_not _ _⟩

/-- C8 witness: deleting an expense whose account vanished leaves all
accounts untouched and removes the row; deleting a transfer whose
destination vanished leaves all accounts untouched and removes the row;
deleting a transfer between two existing accounts credits the source and
debits the destination and removes the row. -/
theorem c8_delete_with_vanished_accounts_witness :
    ((TransactionService.deleteTransaction deleteDb 8 "u1").1 = .ok () ∧
      (TransactionService.deleteTransaction deleteDb 8 "u1").2.accounts
        = deleteDb.accounts ∧
      TransactionRepo.findById
        (TransactionService.deleteTransaction deleteDb 8 "u1").2 8 = none) ∧
    ((TransactionService.deleteTransaction deleteDb 9 "u1").1 = .ok () ∧
      (TransactionService.deleteTransaction deleteDb 9 "u1").2.accounts
        = deleteDb.accounts ∧
      TransactionRepo.findById
        (TransactionService.deleteTransaction deleteDb 9 "u1").2 9 = none) ∧
    ((TransactionService.deleteTransaction pairDb 3 "u1").1 = .ok () ∧
      AccountRepo.findById (TransactionService.deleteTransaction pairDb 3 "u1").2
          pairTransferTx.accountId
        = some { chk "accA" "u1" 300 with
            balance := (chk "accA" "u1" 300).balance + pairTransferTx.amount } ∧
      AccountRepo.findById (TransactionService.deleteTransaction pairDb 3 "u1").2
          "accB"
        = some { chk "accB" "u1" 200 with
            balance := (chk "accB" "u1" 200).balance - pairTransferTx.amount } ∧
      TransactionRepo.findById
        (TransactionService.deleteTransaction pairDb 3 "u1").2 3 = none) := by
  have h1 := c8_delete_with_vanished_accounts deleteDb "u1" 8 orphanExpenseTx
    rfl rfl
  have h2 := c8_delete_with_vanished_accounts deleteDb "u1" 9 orphanTransferTx
    rfl rfl
  have h3 := c8_delete_with_vanished_accounts pairDb "u1" 3 pairTransferTx
    rfl rfl
  exact ⟨h1.1 rfl,
    h2.2.1 "goneToo" (chk "acc1" "u1" 500) rfl rfl rfl rfl,
    h3.2.2 "accB" (chk "accA" "u1" 300) (chk "accB" "u1" 200) rfl rfl rfl rfl
      (by decide)⟩

end FinApp
